import Mathlib

/-!
Shallow embedding of the deck-building scripts
`src/docs/build_scopeiq_full_deck_nofile.py` and
`src/docs/build_scopeiq_mini_deck_nofile.py`: linear Python scripts that
assemble a PowerPoint presentation with python-pptx and render chart
images with matplotlib.

Modelling conventions:
* Python floats are modelled as exact rationals (`Rat`); pptx lengths
  (`Inches`, `Pt` of `pptx.util`) are EMU integers obtained by truncation
  toward zero, as in `int(x * 914400)` / `int(x * 12700)`.
* An escaping Python exception is modelled as an `Option PyError` (or
  `Except PyError`) result; mutations performed before the raise are kept
  (Python performs no rollback on exceptions).
* The filesystem is a list of paths of the files that exist.
-/

namespace ScopeIQ

/-- `pptx.dml.color.RGBColor`. -/
structure RGBColor where
  r : Nat
  g : Nat
  b : Nat
deriving DecidableEq

/-- Brand palette of both scripts (full deck lines 11-22, mini deck lines 8-18). -/
def SCOPEIQ_BLUE : RGBColor := ⟨37, 99, 235⟩

def DARK_GRAY : RGBColor := ⟨35, 47, 62⟩

def LIGHT_GRAY : RGBColor := ⟨248, 249, 249⟩

def AWS_STORAGE : RGBColor := ⟨255, 153, 0⟩

def AWS_DB : RGBColor := ⟨140, 79, 255⟩

def AWS_COMPUTE : RGBColor := ⟨255, 181, 71⟩

def AWS_NET : RGBColor := ⟨30, 115, 190⟩

def AWS_SECURITY : RGBColor := ⟨0, 125, 188⟩

def AWS_AI : RGBColor := ⟨254, 203, 47⟩

def AWS_MONITOR : RGBColor := ⟨0, 153, 153⟩

def AWS_GRAY : RGBColor := ⟨95, 107, 109⟩

/-- `pptx.util.Inches`: `int(x * 914400)` EMU.  Python `int()` truncates
toward zero; on the rational `q` this is the truncating division of
`q.num * 914400` by `q.den`. -/
def Inches (q : Rat) : Int := (q.num * 914400).tdiv q.den

/-- `pptx.util.Pt`: `int(x * 12700)` EMU, truncated toward zero. -/
def Pt (q : Rat) : Int := (q.num * 12700).tdiv q.den

/-- The EMU-to-inches reading `Length.inches` used by `add_images_row`
(`left.inches + 3.3`): the exact rational `e / 914400`. -/
def EmuInches (e : Int) : Rat := mkRat e 914400

/-- The Python exceptions that can escape the modelled code:
`ValueError` from matplotlib when plotted x/y sequences have incompatible
lengths, `IndexError` from python-pptx out-of-range table-cell access,
`ZeroDivisionError` from python-pptx table allocation with zero columns
(`width // cols` in `CT_Tbl.new_tbl`), and `FileNotFoundError` from
`add_picture` on a path that does not exist. -/
inductive PyError where
  | valueError
  | indexError
  | zeroDivisionError
  | fileNotFoundError (path : String)
deriving DecidableEq

/-! ### ChartRenderer: `add_chart_png` (full deck lines 80-93) -/

/-- A matplotlib artist added to the current figure by `add_chart_png`. -/
inductive Artist where
  | linePlot (x : List String) (y : List Rat) (marker : Bool)
  | barPlot (x : List String) (y : List Rat)
  | fillBetween (x : List String) (y : List Rat)
deriving DecidableEq

/-- The state of the matplotlib figure at `plt.savefig` time. -/
structure Figure where
  artists : List Artist
  title : String
  gridOn : Bool
deriving DecidableEq

/-- The artists produced by the `if kind == ... / elif ... / elif ...`
chain of `add_chart_png`, with the shape rules of the matplotlib calls it
uses:
* `plt.plot(x, y)` requires exactly `len(x) == len(y)` ("x and y must
  have same first dimension"), raising `ValueError` otherwise;
* `plt.bar(x, y)` runs the pair through `np.broadcast_arrays`, which for
  one-dimensional sequences accepts equal lengths or either length being
  1 (the singleton is broadcast), raising `ValueError` otherwise;
* `plt.fill_between(x, y)` broadcasts like `bar`; in the `area` branch
  the following `plt.plot(x, y)` then still requires exact equality, so
  a broadcastable-but-unequal pair fails there.
Two empty sequences are accepted everywhere.  A `kind` outside the three
branches plots nothing. -/
def chartArtists (kind : String) (x : List String) (y : List Rat) :
    Except PyError (List Artist) :=
  if kind = "line" then
    if x.length = y.length then .ok [.linePlot x y true] else .error .valueError
  else if kind = "bar" then
    if x.length = y.length ∨ x.length = 1 ∨ y.length = 1 then .ok [.barPlot x y]
    else .error .valueError
  else if kind = "area" then
    if x.length = y.length ∨ x.length = 1 ∨ y.length = 1 then
      if x.length = y.length then .ok [.fillBetween x y, .linePlot x y true]
      else .error .valueError
    else .error .valueError
  else .ok []

/-- Observable outcome of one `add_chart_png` call: the files it wrote,
whether `plt.close()` was reached, the figure saved (on success), and the
escaped exception (on failure). -/
structure ChartRun where
  filesWritten : List String
  closed : Bool
  figure : Option Figure
  error : Option PyError
deriving DecidableEq

/-- `add_chart_png(path, kind, x, y, title)` (full deck lines 80-93).
The source has no `try`/`finally`: an exception raised while plotting
skips `plt.title`, `plt.grid`, `plt.tight_layout`, `plt.savefig` *and*
`plt.close`, so on the failure path no file is written and the figure is
not closed.  On success exactly one file is written at `path` and the
figure is closed. -/
def add_chart_png (path : String) (kind : String) (x : List String) (y : List Rat)
    (title : String) : ChartRun :=
  match chartArtists kind x y with
  | .error e => { filesWritten := [], closed := false, figure := none, error := some e }
  | .ok artists =>
      { filesWritten := [path]
        closed := true
        figure := some { artists := artists, title := title
                         gridOn := if kind ≠ "bar" then true else false }
        error := none }

/-! ### python-pptx data model, to the granularity the scripts touch -/

/-- `pptx.enum.text.PP_ALIGN` values used by the scripts. -/
inductive PPAlign where
  | left
  | center
  | right
deriving DecidableEq

/-- `pptx.enum.shapes.MSO_SHAPE` values used by the scripts. -/
inductive MsoShapeType where
  | oval
  | roundedRectangle
deriving DecidableEq

/-- A text run (`paragraph.add_run()` plus the `run.font` attributes the
scripts set). -/
structure TextRun where
  text : String
  size : Option Int := none
  color : Option RGBColor := none
  bold : Option Bool := none
deriving DecidableEq

/-- A paragraph: its runs plus the paragraph-level `font` and `alignment`
attributes the scripts set. -/
structure Para where
  runs : List TextRun := []
  size : Option Int := none
  color : Option RGBColor := none
  alignment : Option PPAlign := none
deriving DecidableEq

/-- A table cell (`cell.text` plus the `paragraphs[0].font` attributes the
scripts set). -/
structure Cell where
  text : String := ""
  bold : Option Bool := none
  size : Option Int := none
deriving DecidableEq

/-- A shape on a slide, at the granularity the scripts create them.
Positions and sizes are EMU integers. -/
inductive Shape where
  | textbox (left top width height : Int) (paras : List Para)
  | autoshape (shapeType : MsoShapeType) (left top width height : Int)
      (fillColor : RGBColor) (fillTransparency : Rat) (lineColor : RGBColor)
  | table (left top width height : Int) (grid : List (List Cell))
  | picture (path : String) (left top height : Int)
  | connector (connectorType : Int) (beginX beginY endX endY : Int)
      (lineColor : RGBColor) (lineWidth : Int)
deriving DecidableEq

/-- A slide: layout index (into `prs.slide_layouts`), title placeholder,
body placeholder paragraphs, and the shapes added to it. -/
structure Slide where
  layout : Nat
  title : Option String := none
  body : List Para := []
  shapes : List Shape := []
deriving DecidableEq

/-- A presentation: the ordered slide sequence. -/
structure Presentation where
  slides : List Slide := []
deriving DecidableEq

def appendSlide (prs : Presentation) (s : Slide) : Presentation :=
  { slides := prs.slides ++ [s] }

/-! ### Decorator: `add_watermark` (lines 25-33) and `add_tiny_ai_icon`
(lines 35-46); identical in the mini deck (lines 20-36) -/

/-- The textbox `add_watermark` appends: absolute position
`Inches(7.0), Inches(6.7), Inches(3.0), Inches(0.5)`, one right-aligned
paragraph with one run in 16 pt ScopeIQ blue. -/
def watermarkShape (text : String) : Shape :=
  .textbox (Inches 7) (Inches (mkRat 67 10)) (Inches 3) (Inches (mkRat 1 2))
    [{ runs := [{ text := text, size := some (Pt 16), color := some SCOPEIQ_BLUE }]
       alignment := some .right }]

def add_watermark (s : Slide) (text : String) : Slide :=
  { s with shapes := s.shapes ++ [watermarkShape text] }

/-- The oval `add_tiny_ai_icon` appends: absolute position
`Inches(0.25), Inches(6.8), Inches(0.35), Inches(0.35)`, blue fill at
transparency 0.2, blue line. -/
def badgeOvalShape : Shape :=
  .autoshape .oval (Inches (mkRat 1 4)) (Inches (mkRat 34 5)) (Inches (mkRat 7 20)) (Inches (mkRat 7 20))
    SCOPEIQ_BLUE (mkRat 1 5) SCOPEIQ_BLUE

/-- The "AI" textbox `add_tiny_ai_icon` appends over the oval. -/
def badgeLabelShape : Shape :=
  .textbox (Inches (mkRat 1 4)) (Inches (mkRat 34 5)) (Inches (mkRat 7 20)) (Inches (mkRat 7 20))
    [{ runs := [{ text := "AI" }], size := some (Pt 10), color := some DARK_GRAY
       alignment := some .center }]

def add_tiny_ai_icon (s : Slide) : Slide :=
  { s with shapes := s.shapes ++ [badgeOvalShape, badgeLabelShape] }

/-! ### DiagramCanvas: `add_service_box` (lines 105-116) and
`add_connector` (lines 118-122); identical in the mini deck (38-52) -/

/-- `add_service_box(slide, label, x, y, w, h, color, opacity, text_color,
bold)`: a rounded rectangle plus a label textbox inset by 0.1 in.  The
Python defaults are `opacity=0.15`, `text_color=DARK_GRAY`, `bold=True`;
the model takes them as explicit arguments.  The source performs no
geometry validation whatsoever. -/
def add_service_box (s : Slide) (label : String) (x y w h : Rat) (color : RGBColor)
    (opacity : Rat) (textColor : RGBColor) (bold : Bool) : Slide :=
  let rect : Shape :=
    .autoshape .roundedRectangle (Inches x) (Inches y) (Inches w) (Inches h)
      color opacity color
  let tx : Shape :=
    .textbox (Inches (x + mkRat 1 10)) (Inches (y + mkRat 1 10)) (Inches (w - mkRat 1 5)) (Inches (h - mkRat 1 5))
      [{ runs := [{ text := label, size := some (Pt 12), color := some textColor
                    bold := some bold }]
         alignment := some .center }]
  { s with shapes := s.shapes ++ [rect, tx] }

/-- `add_connector(slide, x1, y1, x2, y2)` of the full deck: a type-1
(straight) connector whose line colour and width are the fixed constants
`AWS_GRAY` and `Pt(1.5)`; the caller supplies only endpoints. -/
def add_connector (s : Slide) (x1 y1 x2 y2 : Rat) : Slide :=
  { s with shapes := s.shapes ++
      [.connector 1 (Inches x1) (Inches y1) (Inches x2) (Inches y2) AWS_GRAY (Pt (mkRat 3 2))] }

/-- `add_connector` of the mini deck (lines 49-52), written identically. -/
def add_connector_mini (s : Slide) (x1 y1 x2 y2 : Rat) : Slide :=
  { s with shapes := s.shapes ++
      [.connector 1 (Inches x1) (Inches y1) (Inches x2) (Inches y2) AWS_GRAY (Pt (mkRat 3 2))] }

/-- The note textbox added directly on the two diagram slides
(`slide.shapes.add_textbox` + `tf.text` + 12 pt dark-gray font). -/
def noteShape (left top width height : Rat) (text : String) : Shape :=
  .textbox (Inches left) (Inches top) (Inches width) (Inches height)
    [{ runs := [{ text := text }], size := some (Pt 12), color := some DARK_GRAY }]

/-- One statement of a diagram-slide body, as data so a diagram slide is a
first-class slide spec. -/
inductive DiagramOp where
  | serviceBox (label : String) (x y w h : Rat) (color : RGBColor) (opacity : Rat)
      (textColor : RGBColor) (bold : Bool)
  | connectorLine (x1 y1 x2 y2 : Rat)
  | noteBox (left top width height : Rat) (text : String)
deriving DecidableEq

def applyDiagramOp (s : Slide) : DiagramOp → Slide
  | .serviceBox label x y w h color opacity textColor bold =>
      add_service_box s label x y w h color opacity textColor bold
  | .connectorLine x1 y1 x2 y2 => add_connector s x1 y1 x2 y2
  | .noteBox l t w h text => { s with shapes := s.shapes ++ [noteShape l t w h text] }

/-! ### ContentBlockBuilders -/

/-- Body paragraphs produced by `add_bullets_slide` (lines 48-59):
`body.clear()` leaves one empty paragraph, which the first bullet reuses
(`body.paragraphs[0]`); each later bullet gets `body.add_paragraph()`.
Each bullet paragraph is 14 pt dark gray. -/
def bulletParas : List String → List Para
  | [] => [{}]
  | bullets => bullets.map fun b =>
      { runs := [{ text := b }], size := some (Pt 14), color := some DARK_GRAY }

/-- The slide built by `add_bullets_slide(prs, title, bullets)`:
layout 1, title, bullet body, then watermark and badge. -/
def bulletsSlideContent (title : String) (bullets : List String) : Slide :=
  add_tiny_ai_icon (add_watermark
    { layout := 1, title := some title, body := bulletParas bullets } "ScopeIQ")

/-- The title slide built at module level (full deck lines 128-131):
layout 0, title text, subtitle in `placeholders[1]`, watermark, badge. -/
def titleSlideContent (title subtitle : String) : Slide :=
  add_tiny_ai_icon (add_watermark
    { layout := 0, title := some title, body := [{ runs := [{ text := subtitle }] }] }
    "ScopeIQ")

/-- A diagram slide as built at module level (e.g. lines 210-234):
layout 5, title, then service boxes / connectors / note textboxes, then
watermark and badge. -/
def diagramSlideContent (title : String) (ops : List DiagramOp) : Slide :=
  add_tiny_ai_icon (add_watermark
    (ops.foldl applyDiagramOp { layout := 5, title := some title }) "ScopeIQ")

/-! ### Table builder: `add_table_slide` (lines 61-78) -/

def emptyCell : Cell := {}

/-- The grid `shapes.add_table(row_count, col_count, ...)` allocates:
`row_count × col_count` empty cells. -/
def initGrid (rowCount colCount : Nat) : List (List Cell) :=
  List.replicate rowCount (List.replicate colCount emptyCell)

/-- python-pptx `table.cell(i, j)`: plain list indexing into the XML row
and cell lists, raising `IndexError` when out of range.  The model applies
the mutation `f` to the addressed cell. -/
def setCell (grid : List (List Cell)) (i j : Nat) (f : Cell → Cell) :
    Except PyError (List (List Cell)) :=
  match grid[i]? with
  | none => .error .indexError
  | some row =>
      match row[j]? with
      | none => .error .indexError
      | some c => .ok (grid.set i (row.set j (f c)))

/-- Mutation of a header cell: `cell.text = h`, bold, 12 pt (lines 67-71). -/
def headerCellUpdate (h : String) (c : Cell) : Cell :=
  { c with text := h, bold := some true, size := some (Pt 12) }

/-- Mutation of a data cell: `cell.text = val`, 12 pt (lines 72-76). -/
def rowCellUpdate (v : String) (c : Cell) : Cell :=
  { c with text := v, size := some (Pt 12) }

/-- One `for j, v in enumerate(vals)` pass writing cells `(i, j)`,
`(i, j+1)`, ...; stops at the first `IndexError`, keeping the mutations
already made (Python has no rollback). -/
def fillFrom (mk : String → Cell → Cell) (grid : List (List Cell)) (i j : Nat) :
    List String → List (List Cell) × Option PyError
  | [] => (grid, none)
  | v :: rest =>
      match setCell grid i j (mk v) with
      | .error e => (grid, some e)
      | .ok g => fillFrom mk g i (j + 1) rest

/-- The `for i, r in enumerate(rows, start=1)` loop (lines 72-76). -/
def fillRowsFrom (grid : List (List Cell)) (i : Nat) :
    List (List String) → List (List Cell) × Option PyError
  | [] => (grid, none)
  | r :: rest =>
      match fillFrom rowCellUpdate grid i 0 r with
      | (g, some e) => (g, some e)
      | (g, none) => fillRowsFrom g (i + 1) rest

/-- python-pptx `shapes.add_table(row_count, col_count, ...)`:
`CT_Tbl.new_tbl` computes the per-column width as `width // cols`, so a
zero column count raises `ZeroDivisionError` before the table shape is
attached; otherwise the `row_count × col_count` grid of empty cells is
allocated.  (`row_count = 1 + len(rows)` is never zero, so the matching
`height // rows` cannot raise here.) -/
def addTableShape (rowCount colCount : Nat) : Except PyError (List (List Cell)) :=
  if colCount = 0 then .error .zeroDivisionError
  else .ok (initGrid rowCount colCount)

/-- The table grid after `add_table_slide`'s allocation and two fill
loops: allocate `(1 + len(rows)) × len(headers)`, write the header row,
then the data rows.  Second component: the escaped exception, if any
(on an allocation failure no grid exists). -/
def tableGrid (headers : List String) (rows : List (List String)) :
    List (List Cell) × Option PyError :=
  match addTableShape (1 + rows.length) headers.length with
  | .error e => ([], some e)
  | .ok grid0 =>
      match fillFrom headerCellUpdate grid0 0 0 headers with
      | (g, some e) => (g, some e)
      | (g, none) => fillRowsFrom g 1 rows

/-- The table shape of `add_table_slide`: position
`Inches(0.5), Inches(1.4), Inches(9.0), Inches(1.2 + 0.35*row_count)`. -/
def tableShapeOf (rowCount : Nat) (grid : List (List Cell)) : Shape :=
  .table (Inches (mkRat 1 2)) (Inches (mkRat 7 5)) (Inches 9)
    (Inches (mkRat (24 + 7 * (rowCount : Int)) 20)) grid

/-- The slide `add_table_slide` builds, together with the escaped
exception if the allocation fails or a data row overruns the allocated
columns.  The slide itself is created (and its title set) first; if
`add_table` raises `ZeroDivisionError` the slide carries no table shape,
while after a successful allocation the (partially filled) table shape
is attached before the cell loops run, so a failing fill still leaves a
partial slide; the watermark and badge are only added after both loops
succeed. -/
def tableSlideContent (title : String) (headers : List String)
    (rows : List (List String)) : Slide × Option PyError :=
  match addTableShape (1 + rows.length) headers.length with
  | .error e => ({ layout := 5, title := some title }, some e)
  | .ok _ =>
      match tableGrid headers rows with
      | (g, some e) =>
          ({ layout := 5, title := some title
             shapes := [tableShapeOf (1 + rows.length) g] }, some e)
      | (g, none) =>
          (add_tiny_ai_icon (add_watermark
            { layout := 5, title := some title
              shapes := [tableShapeOf (1 + rows.length) g] } "ScopeIQ"), none)

/-! ### ImageRow builder: `add_images_row` (lines 95-103) -/

/-- The `for img in image_paths` loop: each image is placed at the running
cursor at fixed top and height; `add_picture` raises `FileNotFoundError`
if the path does not exist; on success the cursor advances by
`left.inches + 3.3`. -/
def addPicturesFrom (s : Slide) (fs : List String) (leftIn topIn heightIn : Rat) :
    List String → Slide × Option PyError
  | [] => (s, none)
  | img :: rest =>
      if img ∈ fs then
        addPicturesFrom
          { s with shapes :=
              s.shapes ++ [.picture img (Inches leftIn) (Inches topIn) (Inches heightIn)] }
          fs (EmuInches (Inches leftIn) + mkRat 33 10) topIn heightIn rest
      else (s, some (.fileNotFoundError img))

/-- The slide `add_images_row(prs, title, image_paths)` builds (with the
source defaults `top_in=1.5`, `heights_in=2.5`), and the escaped
exception if an image path does not exist.  As with the table builder,
the slide exists before the loop runs, and decoration happens last. -/
def imagesRowSlideContent (fs : List String) (title : String)
    (paths : List String) : Slide × Option PyError :=
  match addPicturesFrom { layout := 5, title := some title } fs (mkRat 1 2) (mkRat 3 2) (mkRat 5 2) paths with
  | (s, some e) => (s, some e)
  | (s, none) => (add_tiny_ai_icon (add_watermark s "ScopeIQ"), none)

/-! ### Presentation-level builders and the deck build -/

/-- `add_bullets_slide(prs, title, bullets)`: appends exactly one slide;
cannot raise. -/
def add_bullets_slide (prs : Presentation) (title : String) (bullets : List String) :
    Presentation :=
  appendSlide prs (bulletsSlideContent title bullets)

/-- `add_table_slide(prs, title, headers, rows)`: the new slide is
appended to the presentation by `prs.slides.add_slide` *before* the cell
loops run, so it remains in the slide sequence even when the fill raises;
the exception propagates to the caller. -/
def add_table_slide (prs : Presentation) (title : String) (headers : List String)
    (rows : List (List String)) : Presentation × Option PyError :=
  (appendSlide prs (tableSlideContent title headers rows).1,
   (tableSlideContent title headers rows).2)

/-- `add_images_row(prs, title, image_paths)`: likewise appends the slide
before placing pictures. -/
def add_images_row (prs : Presentation) (fs : List String) (title : String)
    (paths : List String) : Presentation × Option PyError :=
  (appendSlide prs (imagesRowSlideContent fs title paths).1,
   (imagesRowSlideContent fs title paths).2)

/-- One slide of the module-level build plan (lines 124-275): the five
slide forms the script produces. -/
inductive SlideSpec where
  | titleSlide (title subtitle : String)
  | bullets (title : String) (items : List String)
  | tableSlide (title : String) (headers : List String) (rows : List (List String))
  | imagesRow (title : String) (paths : List String)
  | diagram (title : String) (ops : List DiagramOp)
deriving DecidableEq

/-- Build the slide of one spec: the slide content and the escaped
exception, if any. -/
def buildSlideSpec (fs : List String) : SlideSpec → Slide × Option PyError
  | .titleSlide t sub => (titleSlideContent t sub, none)
  | .bullets t items => (bulletsSlideContent t items, none)
  | .tableSlide t headers rows => tableSlideContent t headers rows
  | .imagesRow t paths => imagesRowSlideContent fs t paths
  | .diagram t ops => (diagramSlideContent t ops, none)

/-- The module-level build sequence: one slide per spec, appended in plan
order; the first escaped exception aborts the run (the partially built
slide stays appended, Python having no rollback). -/
def buildDeckFrom (prs : Presentation) (fs : List String) :
    List SlideSpec → Presentation × Option PyError
  | [] => (prs, none)
  | spec :: rest =>
      match buildSlideSpec fs spec with
      | (s, some e) => (appendSlide prs s, some e)
      | (s, none) => buildDeckFrom (appendSlide prs s) fs rest

def buildDeck (fs : List String) (plan : List SlideSpec) :
    Presentation × Option PyError :=
  buildDeckFrom { slides := [] } fs plan

/-! ### Auxiliary notions for the statements -/

/-- Number of occurrences of a given shape in a shape list. -/
def countShape (shapes : List Shape) (target : Shape) : Nat :=
  shapes.countP fun sh => decide (sh = target)

/-- Cell `(i, j)` of a grid, if in range. -/
def cellAt (g : List (List Cell)) (i j : Nat) : Option Cell :=
  (g[i]?).bind fun row => row[j]?

/-- A grid with `rc` rows, each of `cc` cells. -/
def gridWF (g : List (List Cell)) (rc cc : Nat) : Prop :=
  g.length = rc ∧ ∀ row ∈ g, row.length = cc

/-- A small concrete plan used to evaluate the general theorems. -/
def demoPlan : List SlideSpec :=
  [.bullets "A" ["x"], .titleSlide "T" "S"]

/-! ## Theorems -/

theorem chartArtists_error_cases (kind : String) (x : List String) (y : List Rat) :
    chartArtists kind x y = .error .valueError ∨
      ∃ arts, chartArtists kind x y = .ok arts := by
  unfold chartArtists
  repeat' split
  all_goals simp

/-- C1 (amended): `add_chart_png` raises matplotlib's shape-mismatch
`ValueError` exactly when the series lengths are incompatible for the
plotting calls of the given kind — for `line` and `area` when
`len(x) ≠ len(y)` (the `plt.plot` call requires exact equality; in the
`area` branch `fill_between` broadcasts, but the following `plot` still
rejects), and for `bar` when the lengths are unequal and neither is 1
(`np.broadcast_arrays` broadcasts a singleton).  Whenever no error is
raised — the empty series included — exactly one image file is written
at the destination; on an error the file is not written.  (The claim's
"raises iff `len(x) ≠ len(y)` or the series are empty" fails in both
directions: the empty equal-length series succeeds, see
`chart_empty_series_succeeds`, and `bar` with lengths 2 and 1 draws two
equal-height bars and writes the file.  The source defines no
`ShapeMismatchError` class; the mismatch surfaces as `ValueError`.) -/
theorem chart_shape_error_iff (path kind : String) (x : List String) (y : List Rat)
    (title : String) :
    (kind = "line" ∨ kind = "area" →
      ((add_chart_png path kind x y title).error = none ↔ x.length = y.length)) ∧
    (kind = "bar" →
      ((add_chart_png path kind x y title).error = none ↔
        (x.length = y.length ∨ x.length = 1 ∨ y.length = 1))) ∧
    ((add_chart_png path kind x y title).error = none →
      (add_chart_png path kind x y title).filesWritten = [path]) ∧
    ((add_chart_png path kind x y title).error ≠ none →
      (add_chart_png path kind x y title).error = some .valueError ∧
      (add_chart_png path kind x y title).filesWritten = []) := by
  refine ⟨?_, ?_, ?_, ?_⟩
  · rintro (rfl | rfl)
    · by_cases hl : x.length = y.length <;> simp [add_chart_png, chartArtists, hl]
    · by_cases hl : x.length = y.length
      · simp [add_chart_png, chartArtists, hl]
      · by_cases hb : x.length = 1 ∨ y.length = 1 <;>
          simp [add_chart_png, chartArtists, hl, hb]
  · rintro rfl
    by_cases hb : x.length = y.length ∨ x.length = 1 ∨ y.length = 1 <;>
      simp [add_chart_png, chartArtists, hb]
  · intro h
    rcases chartArtists_error_cases kind x y with hc | ⟨arts, hc⟩
    · simp [add_chart_png, hc] at h
    · simp [add_chart_png, hc]
  · intro h
    rcases chartArtists_error_cases kind x y with hc | ⟨arts, hc⟩
    · simp [add_chart_png, hc]
    · simp [add_chart_png, hc] at h

/-- Witness for `chart_shape_error_iff`: the `line` kind at equal
length 1, and the `bar` kind at lengths 2 and 1 — the broadcast case,
where the file is written despite the length mismatch. -/
theorem chart_shape_error_iff_witness :
    ((add_chart_png "c.png" "line" ["M1"] [5] "t").error = none ↔
      (["M1"] : List String).length = [(5 : Rat)].length) ∧
    ((add_chart_png "c.png" "bar" ["M1", "M2"] [5] "t").error = none ↔
      ((["M1", "M2"] : List String).length = [(5 : Rat)].length ∨
        (["M1", "M2"] : List String).length = 1 ∨ [(5 : Rat)].length = 1)) ∧
    (add_chart_png "c.png" "bar" ["M1", "M2"] [5] "t").filesWritten = ["c.png"] := by
  have h1 := chart_shape_error_iff "c.png" "line" ["M1"] [5] "t"
  have h2 := chart_shape_error_iff "c.png" "bar" ["M1", "M2"] [5] "t"
  exact ⟨h1.1 (Or.inl rfl), h2.2.1 rfl, h2.2.2.1 (by decide)⟩

/-- C1 counterexample: on the empty series (`x = y = []`, equal length,
so the claim as stated demands a `ShapeMismatchError` because the series
are empty) `add_chart_png` raises nothing and still writes the image
file. -/
theorem chart_empty_series_succeeds :
    (add_chart_png "c.png" "line" [] [] "t").error = none ∧
    (add_chart_png "c.png" "line" [] [] "t").filesWritten = ["c.png"] := by
  decide

/-- C4 (amended): `plt.close()` is reached exactly on the executions on
which no exception escapes — the source has no `try`/`finally`, so a
plotting failure skips the close.  The claim's "released on every
execution path" is refuted by `chart_mismatch_skips_close`. -/
theorem chart_close_iff_success (path kind : String) (x : List String) (y : List Rat)
    (title : String) :
    (add_chart_png path kind x y title).closed = true ↔
      (add_chart_png path kind x y title).error = none := by
  cases h : chartArtists kind x y <;> simp [add_chart_png, h]

/-- C4 counterexample: on a shape mismatch the figure is never closed
(`plt.close()` is unreachable after the `ValueError`). -/
theorem chart_mismatch_skips_close :
    (add_chart_png "c.png" "line" ["M1"] [] "t").error = some .valueError ∧
    (add_chart_png "c.png" "line" ["M1"] [] "t").closed = false := by
  decide

/-- C10: for every `kind` outside `line`/`bar`/`area`, `add_chart_png`
raises nothing and still writes exactly one image file at the
destination; the saved figure has the given title, grid enabled (the
`kind != "bar"` test is true), and no plotted series. -/
theorem chart_unknown_kind_blank_figure (path kind : String) (x : List String)
    (y : List Rat) (title : String) (h1 : kind ≠ "line") (h2 : kind ≠ "bar")
    (h3 : kind ≠ "area") :
    (add_chart_png path kind x y title).error = none ∧
    (add_chart_png path kind x y title).filesWritten = [path] ∧
    (add_chart_png path kind x y title).figure
      = some { artists := [], title := title, gridOn := true } := by
  simp [add_chart_png, chartArtists, h1, h2, h3]

/-- Witness for `chart_unknown_kind_blank_figure` at `kind = "pie"`,
with mismatched series lengths. -/
theorem chart_unknown_kind_blank_figure_witness :
    (add_chart_png "c.png" "pie" ["M1"] [] "t").error = none ∧
    (add_chart_png "c.png" "pie" ["M1"] [] "t").filesWritten = ["c.png"] ∧
    (add_chart_png "c.png" "pie" ["M1"] [] "t").figure
      = some { artists := [], title := "t", gridOn := true } :=
  chart_unknown_kind_blank_figure "c.png" "pie" ["M1"] [] "t"
    (by decide) (by decide) (by decide)

/-- C5 (amended): `add_service_box` and `add_connector` perform no
geometry validation at all — the source defines no `InvalidGeometryError`
— and succeed on every rational input, including non-positive widths and
heights, always appending their two shapes (box + label) resp. one
connector.  (Non-finite float coordinates are outside the rational model;
in the source they would surface as the `int()` conversion's
`OverflowError`/`ValueError` inside `pptx.util.Inches`, still not an
`InvalidGeometryError`.) -/
theorem diagram_geometry_unchecked :
    (∀ s label x y w h color opacity textColor bold,
      (add_service_box s label x y w h color opacity textColor bold).shapes.length
        = s.shapes.length + 2) ∧
    (∀ s x1 y1 x2 y2,
      (add_connector s x1 y1 x2 y2).shapes.length = s.shapes.length + 1) := by
  constructor <;> intros <;> simp [add_service_box, add_connector]

/-- C5 counterexample: a service box with width and height `-1`
(non-positive size, hence "invalid geometry" per the claim) is added
without any error — the two shapes are appended as on any other input. -/
theorem service_box_negative_size_succeeds :
    (add_service_box { layout := 5 } "Client" 0 0 (-1) (-1) SCOPEIQ_BLUE
      (mkRat 3 20) DARK_GRAY true).shapes.length = 2 := rfl

/-- C9: every connector either script produces has the one fixed style:
line colour `RGBColor(95, 107, 109)` (`AWS_GRAY`) and line width
`Pt(1.5)` = 19050 EMU; the signature offers no per-connector colour or
width, and the mini deck's `add_connector` is the same function. -/
theorem connector_fixed_style :
    (∀ s x1 y1 x2 y2,
      (add_connector s x1 y1 x2 y2).shapes = s.shapes ++
        [Shape.connector 1 (Inches x1) (Inches y1) (Inches x2) (Inches y2)
          (RGBColor.mk 95 107 109) (Pt (mkRat 3 2))]) ∧
    Pt (mkRat 3 2) = 19050 ∧
    (∀ s x1 y1 x2 y2, add_connector_mini s x1 y1 x2 y2 = add_connector s x1 y1 x2 y2) :=
  ⟨fun _ _ _ _ _ => rfl, by decide, fun _ _ _ _ _ => rfl⟩

theorem countShape_append (l1 l2 : List Shape) (t : Shape) :
    countShape (l1 ++ l2) t = countShape l1 t + countShape l2 t :=
  List.countP_append _ _ _

/-- No shape a diagram statement adds is the watermark textbox or the
badge oval: the rounded rectangle and the connector differ from both by
constructor, and the label/note textboxes differ from the watermark in
their paragraph formatting (centred resp. unaligned 12 pt, against the
right-aligned watermark). -/
theorem applyDiagramOp_countShape (s : Slide) (op : DiagramOp) (t : Shape)
    (ht : t = watermarkShape "ScopeIQ" ∨ t = badgeOvalShape) :
    countShape (applyDiagramOp s op).shapes t = countShape s.shapes t := by
  cases op <;> rcases ht with rfl | rfl <;>
    simp [applyDiagramOp, add_service_box, add_connector, noteShape, countShape,
      watermarkShape, badgeOvalShape, List.countP_append, List.countP_cons]

theorem diagramFold_countShape (ops : List DiagramOp) (s : Slide) (t : Shape)
    (ht : t = watermarkShape "ScopeIQ" ∨ t = badgeOvalShape) :
    countShape ((ops.foldl applyDiagramOp s).shapes) t = countShape s.shapes t := by
  induction ops generalizing s with
  | nil => rfl
  | cons op rest ih =>
      rw [List.foldl_cons, ih (applyDiagramOp s op), applyDiagramOp_countShape s op t ht]

/-- The picture loop adds only `Shape.picture` shapes (on every path,
also the failing one), so it never changes the count of a non-picture
shape. -/
theorem addPicturesFrom_countShape (imgs : List String) (s : Slide) (fs : List String)
    (leftIn topIn heightIn : Rat) (t : Shape)
    (ht : ∀ p a b c, Shape.picture p a b c ≠ t) :
    countShape ((addPicturesFrom s fs leftIn topIn heightIn imgs).1).shapes t
      = countShape s.shapes t := by
  induction imgs generalizing s leftIn with
  | nil => rfl
  | cons img rest ih =>
      by_cases hmem : img ∈ fs
      · rw [addPicturesFrom, if_pos hmem, ih]
        simp [countShape, List.countP_append, List.countP_cons, ht]
      · rw [addPicturesFrom, if_neg hmem]

/-- C6: every slide any of the slide builders successfully produces
carries exactly one watermark textbox and exactly one badge oval, and
they are the very shapes `add_watermark`/`add_tiny_ai_icon` create at
the fixed absolute coordinates (`Inches(7.0), Inches(6.7)` resp.
`Inches(0.25), Inches(6.8)`), independent of title, layout and content
blocks. -/
theorem slide_decoration_unique_and_fixed (fs : List String) (spec : SlideSpec)
    (h : (buildSlideSpec fs spec).2 = none) :
    countShape (buildSlideSpec fs spec).1.shapes (watermarkShape "ScopeIQ") = 1 ∧
    countShape (buildSlideSpec fs spec).1.shapes badgeOvalShape = 1 := by
  cases spec with
  | titleSlide title subtitle =>
      constructor <;>
        · simp only [buildSlideSpec, titleSlideContent, add_watermark, add_tiny_ai_icon]
          decide
  | bullets title items =>
      constructor <;>
        · simp only [buildSlideSpec, bulletsSlideContent, add_watermark, add_tiny_ai_icon]
          decide
  | diagram title ops =>
      have hwm := diagramFold_countShape ops { layout := 5, title := some title }
        (watermarkShape "ScopeIQ") (Or.inl rfl)
      have hov := diagramFold_countShape ops { layout := 5, title := some title }
        badgeOvalShape (Or.inr rfl)
      constructor <;>
        · simp only [buildSlideSpec, diagramSlideContent, add_watermark, add_tiny_ai_icon,
            countShape_append, hwm, hov]
          decide
  | tableSlide title headers rows =>
      cases hts : addTableShape (1 + rows.length) headers.length with
      | error e2 => simp [buildSlideSpec, tableSlideContent, hts] at h
      | ok grid0 =>
          rcases htg : tableGrid headers rows with ⟨g, e⟩
          cases e with
          | some e2 => simp [buildSlideSpec, tableSlideContent, hts, htg] at h
          | none =>
              constructor <;>
                · simp only [buildSlideSpec, tableSlideContent, hts, htg, add_watermark,
                    add_tiny_ai_icon, countShape_append, tableShapeOf]
                  simp [countShape, List.countP_cons, watermarkShape, badgeOvalShape,
                    badgeLabelShape]
  | imagesRow title paths =>
      rcases hp : addPicturesFrom { layout := 5, title := some title } fs
          (mkRat 1 2) (mkRat 3 2) (mkRat 5 2) paths with ⟨s, e⟩
      cases e with
      | some e2 => simp [buildSlideSpec, imagesRowSlideContent, hp] at h
      | none =>
          have hwm := addPicturesFrom_countShape paths { layout := 5, title := some title }
            fs (mkRat 1 2) (mkRat 3 2) (mkRat 5 2) (watermarkShape "ScopeIQ")
            (by intro p a b c; simp [watermarkShape])
          have hov := addPicturesFrom_countShape paths { layout := 5, title := some title }
            fs (mkRat 1 2) (mkRat 3 2) (mkRat 5 2) badgeOvalShape
            (by intro p a b c; simp [badgeOvalShape])
          rw [hp] at hwm hov
          constructor <;>
            · simp only [buildSlideSpec, imagesRowSlideContent, hp, add_watermark,
                add_tiny_ai_icon, countShape_append, hwm, hov]
              decide

/-- Witness for `slide_decoration_unique_and_fixed` on a bullet slide. -/
theorem slide_decoration_unique_and_fixed_witness :
    (buildSlideSpec [] (SlideSpec.bullets "Vision" ["a", "b"])).2 = none ∧
    countShape (buildSlideSpec [] (SlideSpec.bullets "Vision" ["a", "b"])).1.shapes
      (watermarkShape "ScopeIQ") = 1 ∧
    countShape (buildSlideSpec [] (SlideSpec.bullets "Vision" ["a", "b"])).1.shapes
      badgeOvalShape = 1 :=
  ⟨by decide,
   (slide_decoration_unique_and_fixed [] (SlideSpec.bullets "Vision" ["a", "b"])
     (by decide)).1,
   (slide_decoration_unique_and_fixed [] (SlideSpec.bullets "Vision" ["a", "b"])
     (by decide)).2⟩

theorem mem_of_getElem?_some {α : Type _} {l : List α} {n : Nat} {a : α}
    (h : l[n]? = some a) : a ∈ l := by
  induction l generalizing n with
  | nil => simp at h
  | cons b bs ih =>
      cases n with
      | zero =>
          rw [List.getElem?_cons_zero] at h
          injection h with h2
          subst h2
          exact List.mem_cons_self _ _
      | succ m =>
          rw [List.getElem?_cons_succ] at h
          exact List.mem_cons_of_mem _ (ih h)

theorem lt_length_of_getElem?_some {α : Type _} {l : List α} {n : Nat} {a : α}
    (h : l[n]? = some a) : n < l.length := by
  by_contra hn
  push_neg at hn
  rw [List.getElem?_eq_none hn] at h
  cases h

theorem setCell_ok_iff {grid : List (List Cell)} {i j : Nat} {f : Cell → Cell}
    {g : List (List Cell)} :
    setCell grid i j f = .ok g ↔
      ∃ row c, grid[i]? = some row ∧ row[j]? = some c ∧
        g = grid.set i (row.set j (f c)) := by
  unfold setCell
  cases hg : grid[i]? with
  | none => simp [hg]
  | some row =>
      cases hr : row[j]? with
      | none => simp [hr]
      | some c => simp [hr, eq_comm]

theorem setCell_WF {grid : List (List Cell)} {i j : Nat} {f : Cell → Cell}
    {g : List (List Cell)} {rc cc : Nat} (hwf : gridWF grid rc cc)
    (h : setCell grid i j f = .ok g) : gridWF g rc cc := by
  rcases setCell_ok_iff.mp h with ⟨row, c, hg, hr, rfl⟩
  refine ⟨by rw [List.length_set]; exact hwf.1, ?_⟩
  intro row2 hmem
  rcases List.mem_or_eq_of_mem_set hmem with hmem2 | rfl
  · exact hwf.2 _ hmem2
  · rw [List.length_set]
    exact hwf.2 _ (mem_of_getElem?_some hg)

theorem setCell_isOk {grid : List (List Cell)} {i j : Nat} (f : Cell → Cell)
    {rc cc : Nat} (hwf : gridWF grid rc cc) (hi : i < rc) (hj : j < cc) :
    ∃ g, setCell grid i j f = .ok g := by
  have hi2 : i < grid.length := by rw [hwf.1]; exact hi
  have hrow := List.getElem?_eq_getElem hi2
  have hlen : grid[i].length = cc := hwf.2 _ (mem_of_getElem?_some hrow)
  have hj2 : j < grid[i].length := by rw [hlen]; exact hj
  exact ⟨_, setCell_ok_iff.mpr
    ⟨grid[i], grid[i].get ⟨j, hj2⟩, hrow, List.getElem?_eq_getElem hj2, rfl⟩⟩

theorem cellAt_setCell_self {grid : List (List Cell)} {i j : Nat} {f : Cell → Cell}
    {g : List (List Cell)} (h : setCell grid i j f = .ok g) :
    cellAt g i j = (cellAt grid i j).map f := by
  rcases setCell_ok_iff.mp h with ⟨row, c, hg, hr, rfl⟩
  have hi : i < grid.length := lt_length_of_getElem?_some hg
  have hj : j < row.length := lt_length_of_getElem?_some hr
  unfold cellAt
  rw [List.getElem?_set_eq_of_lt _ hi, hg]
  simp only [Option.some_bind]
  rw [hr, List.getElem?_set_eq_of_lt _ hj]
  rfl

theorem cellAt_setCell_ne {grid : List (List Cell)} {i j : Nat} {f : Cell → Cell}
    {g : List (List Cell)} {k l : Nat} (h : setCell grid i j f = .ok g)
    (hne : k ≠ i ∨ l ≠ j) : cellAt g k l = cellAt grid k l := by
  rcases setCell_ok_iff.mp h with ⟨row, c, hg, hr, rfl⟩
  unfold cellAt
  by_cases hk : k = i
  · subst hk
    have hl : l ≠ j := by
      rcases hne with hk2 | hl2
      · exact absurd rfl hk2
      · exact hl2
    rw [List.getElem?_set_eq_of_lt _ (lt_length_of_getElem?_some hg), hg]
    simp [List.getElem?_set_ne (Ne.symm hl)]
  · rw [List.getElem?_set_ne (Ne.symm hk)]

theorem fillFrom_WF (upd : String → Cell → Cell) (i : Nat) {rc cc : Nat} (vs : List String) :
    ∀ (grid : List (List Cell)) (j : Nat), gridWF grid rc cc →
      gridWF (fillFrom upd grid i j vs).1 rc cc := by
  induction vs with
  | nil => intro grid j hwf; exact hwf
  | cons v rest ih =>
      intro grid j hwf
      cases hsc : setCell grid i j (upd v) with
      | error e => simp only [fillFrom, hsc]; exact hwf
      | ok g => simp only [fillFrom, hsc]; exact ih g (j + 1) (setCell_WF hwf hsc)

theorem fillFrom_snd_eq_none (upd : String → Cell → Cell) {i rc cc : Nat}
    (hi : i < rc) (vs : List String) :
    ∀ (grid : List (List Cell)) (j : Nat), gridWF grid rc cc → j + vs.length ≤ cc →
      (fillFrom upd grid i j vs).2 = none := by
  induction vs with
  | nil => intro grid j _ _; rfl
  | cons v rest ih =>
      intro grid j hwf hle
      have hj : j < cc := by rw [List.length_cons] at hle; omega
      obtain ⟨g, hsc⟩ := setCell_isOk (upd v) hwf hi hj
      simp only [fillFrom, hsc]
      exact ih g (j + 1) (setCell_WF hwf hsc) (by rw [List.length_cons] at hle; omega)

theorem fillFrom_snd_some (upd : String → Cell → Cell) {i rc cc : Nat} (hi : i < rc) :
    ∀ (vs : List String) (grid : List (List Cell)) (j : Nat), vs ≠ [] →
      gridWF grid rc cc → cc < j + vs.length →
      (fillFrom upd grid i j vs).2 = some .indexError := by
  intro vs
  induction vs with
  | nil => intro grid j hne; exact absurd rfl hne
  | cons v rest ih =>
      intro grid j _ hwf hgt
      by_cases hj : j < cc
      · obtain ⟨g, hsc⟩ := setCell_isOk (upd v) hwf hi hj
        simp only [fillFrom, hsc]
        have hrest : rest ≠ [] := by
          rw [List.length_cons] at hgt
          intro hnil
          rw [hnil] at hgt
          simp at hgt
          omega
        exact ih g (j + 1) hrest (setCell_WF hwf hsc)
          (by rw [List.length_cons] at hgt; omega)
      · have hi2 : i < grid.length := by rw [hwf.1]; exact hi
        have hrow := List.getElem?_eq_getElem hi2
        have hlen : grid[i].length = cc := hwf.2 _ (mem_of_getElem?_some hrow)
        have hnone : grid[i][j]? = none := by
          apply List.getElem?_eq_none
          rw [hlen]
          omega
        have hsc : setCell grid i j (upd v) = .error .indexError := by
          simp [setCell, hrow, hnone]
        simp only [fillFrom, hsc]

theorem fillFrom_cellAt_ne (upd : String → Cell → Cell) (l : Nat) {i k : Nat}
    (hk : k ≠ i) (vs : List String) :
    ∀ (grid : List (List Cell)) (j : Nat),
      cellAt (fillFrom upd grid i j vs).1 k l = cellAt grid k l := by
  induction vs with
  | nil => intro grid j; rfl
  | cons v rest ih =>
      intro grid j
      cases hsc : setCell grid i j (upd v) with
      | error e => simp only [fillFrom, hsc]
      | ok g =>
          simp only [fillFrom, hsc]
          rw [ih g (j + 1), cellAt_setCell_ne hsc (Or.inl hk)]

theorem fillFrom_cellAt_lt (upd : String → Cell → Cell) {i : Nat} (vs : List String) :
    ∀ (grid : List (List Cell)) (j l : Nat), l < j →
      cellAt (fillFrom upd grid i j vs).1 i l = cellAt grid i l := by
  induction vs with
  | nil => intro grid j l _; rfl
  | cons v rest ih =>
      intro grid j l hl
      cases hsc : setCell grid i j (upd v) with
      | error e => simp only [fillFrom, hsc]
      | ok g =>
          simp only [fillFrom, hsc]
          rw [ih g (j + 1) l (by omega), cellAt_setCell_ne hsc (Or.inr (by omega))]

theorem fillFrom_cellAt_hit (upd : String → Cell → Cell) {i rc cc : Nat}
    (hi : i < rc) (vs : List String) :
    ∀ (grid : List (List Cell)) (j : Nat), gridWF grid rc cc → j + vs.length ≤ cc →
      ∀ (t : Nat) (ht : t < vs.length),
        cellAt (fillFrom upd grid i j vs).1 i (j + t)
          = (cellAt grid i (j + t)).map (upd (vs.get ⟨t, ht⟩)) := by
  induction vs with
  | nil => intro grid j _ _ t ht; exact absurd ht (by simp)
  | cons v rest ih =>
      intro grid j hwf hle t ht
      have hj : j < cc := by rw [List.length_cons] at hle; omega
      obtain ⟨g, hsc⟩ := setCell_isOk (upd v) hwf hi hj
      simp only [fillFrom, hsc]
      cases t with
      | zero =>
          simp only [Nat.add_zero]
          rw [fillFrom_cellAt_lt upd rest g (j + 1) j (by omega),
            cellAt_setCell_self hsc]
          rfl
      | succ s =>
          have hs : s < rest.length := by rw [List.length_cons] at ht; omega
          have hadd : j + (s + 1) = j + 1 + s := by omega
          rw [hadd, ih g (j + 1) (setCell_WF hwf hsc)
              (by rw [List.length_cons] at hle; omega) s hs,
            cellAt_setCell_ne hsc (Or.inr (by omega))]
          rfl

theorem fillRowsFrom_WF {rc cc : Nat} (rows : List (List String)) :
    ∀ (grid : List (List Cell)) (i : Nat), gridWF grid rc cc →
      gridWF (fillRowsFrom grid i rows).1 rc cc := by
  induction rows with
  | nil => intro grid i hwf; exact hwf
  | cons r rest ih =>
      intro grid i hwf
      rcases hf : fillFrom rowCellUpdate grid i 0 r with ⟨g, e⟩
      have hg : gridWF g rc cc := by
        have h3 := fillFrom_WF rowCellUpdate i r grid 0 hwf
        rw [hf] at h3
        exact h3
      cases e with
      | some e2 => simp only [fillRowsFrom, hf]; exact hg
      | none => simp only [fillRowsFrom, hf]; exact ih g (i + 1) hg

theorem fillRowsFrom_snd_none {rc cc : Nat} (rows : List (List String)) :
    ∀ (grid : List (List Cell)) (i : Nat), gridWF grid rc cc →
      i + rows.length ≤ rc → (∀ r ∈ rows, r.length ≤ cc) →
      (fillRowsFrom grid i rows).2 = none := by
  induction rows with
  | nil => intro grid i _ _ _; rfl
  | cons r rest ih =>
      intro grid i hwf hle hrows
      have hi : i < rc := by rw [List.length_cons] at hle; omega
      have h2 : (fillFrom rowCellUpdate grid i 0 r).2 = none :=
        fillFrom_snd_eq_none rowCellUpdate hi r grid 0 hwf
          (by have := hrows r (List.mem_cons_self r rest); omega)
      rcases hf : fillFrom rowCellUpdate grid i 0 r with ⟨g, e⟩
      rw [hf] at h2
      have he : e = none := h2
      subst he
      simp only [fillRowsFrom, hf]
      have hg : gridWF g rc cc := by
        have h3 := fillFrom_WF rowCellUpdate i r grid 0 hwf
        rw [hf] at h3
        exact h3
      exact ih g (i + 1) hg (by rw [List.length_cons] at hle; omega)
        (fun r2 hr2 => hrows r2 (List.mem_cons_of_mem r hr2))

theorem fillRowsFrom_snd_some {rc cc : Nat} (rows : List (List String)) :
    ∀ (grid : List (List Cell)) (i : Nat), gridWF grid rc cc →
      i + rows.length ≤ rc → (∃ r ∈ rows, cc < r.length) →
      (fillRowsFrom grid i rows).2 = some .indexError := by
  induction rows with
  | nil => intro grid i _ _ hbad; simp at hbad
  | cons r rest ih =>
      intro grid i hwf hle hbad
      have hi : i < rc := by rw [List.length_cons] at hle; omega
      by_cases hr : cc < r.length
      · have hrne : r ≠ [] := List.length_pos.mp (by omega)
        have h2 : (fillFrom rowCellUpdate grid i 0 r).2 = some .indexError :=
          fillFrom_snd_some rowCellUpdate hi r grid 0 hrne hwf (by omega)
        rcases hf : fillFrom rowCellUpdate grid i 0 r with ⟨g, e⟩
        rw [hf] at h2
        have he : e = some .indexError := h2
        subst he
        simp only [fillRowsFrom, hf]
      · have h2 : (fillFrom rowCellUpdate grid i 0 r).2 = none :=
          fillFrom_snd_eq_none rowCellUpdate hi r grid 0 hwf (by omega)
        rcases hf : fillFrom rowCellUpdate grid i 0 r with ⟨g, e⟩
        rw [hf] at h2
        have he : e = none := h2
        subst he
        simp only [fillRowsFrom, hf]
        have hg : gridWF g rc cc := by
          have h3 := fillFrom_WF rowCellUpdate i r grid 0 hwf
          rw [hf] at h3
          exact h3
        refine ih g (i + 1) hg (by rw [List.length_cons] at hle; omega) ?_
        rcases hbad with ⟨r0, hr0, hgt0⟩
        rcases List.mem_cons.mp hr0 with rfl | hmem
        · exact absurd hgt0 (by omega)
        · exact ⟨r0, hmem, hgt0⟩

theorem fillRowsFrom_cellAt_lt (rows : List (List String)) :
    ∀ (grid : List (List Cell)) (i k l : Nat), k < i →
      cellAt (fillRowsFrom grid i rows).1 k l = cellAt grid k l := by
  induction rows with
  | nil => intro grid i k l _; rfl
  | cons r rest ih =>
      intro grid i k l hk
      rcases hf : fillFrom rowCellUpdate grid i 0 r with ⟨g, e⟩
      have h3 := fillFrom_cellAt_ne rowCellUpdate l (by omega : k ≠ i) r grid 0
      rw [hf] at h3
      have h3b : cellAt g k l = cellAt grid k l := h3
      cases e with
      | some e2 => simp only [fillRowsFrom, hf]; exact h3b
      | none =>
          simp only [fillRowsFrom, hf]
          rw [ih g (i + 1) k l (by omega)]
          exact h3b

theorem fillRowsFrom_cellAt_hit {rc cc : Nat} (rows : List (List String)) :
    ∀ (grid : List (List Cell)) (i : Nat), gridWF grid rc cc →
      i + rows.length ≤ rc → (∀ r ∈ rows, r.length ≤ cc) →
      ∀ (t : Nat) (ht : t < rows.length) (l : Nat)
        (hl : l < (rows.get ⟨t, ht⟩).length),
        cellAt (fillRowsFrom grid i rows).1 (i + t) l
          = (cellAt grid (i + t) l).map
              (rowCellUpdate ((rows.get ⟨t, ht⟩).get ⟨l, hl⟩)) := by
  induction rows with
  | nil => intro grid i _ _ _ t ht; exact absurd ht (by simp)
  | cons r rest ih =>
      intro grid i hwf hle hrows t ht l hl
      have hi : i < rc := by rw [List.length_cons] at hle; omega
      have h2 : (fillFrom rowCellUpdate grid i 0 r).2 = none :=
        fillFrom_snd_eq_none rowCellUpdate hi r grid 0 hwf
          (by have := hrows r (List.mem_cons_self r rest); omega)
      rcases hf : fillFrom rowCellUpdate grid i 0 r with ⟨g, e⟩
      rw [hf] at h2
      have he : e = none := h2
      subst he
      simp only [fillRowsFrom, hf]
      have hg : gridWF g rc cc := by
        have h3 := fillFrom_WF rowCellUpdate i r grid 0 hwf
        rw [hf] at h3
        exact h3
      cases t with
      | zero =>
          simp only [Nat.add_zero]
          rw [fillRowsFrom_cellAt_lt rest g (i + 1) i l (by omega)]
          have hl2 : l < r.length := hl
          have h4 := fillFrom_cellAt_hit rowCellUpdate hi r grid 0 hwf
            (by have := hrows r (List.mem_cons_self r rest); omega) l hl2
          rw [hf] at h4
          have h4b : cellAt g i (0 + l)
              = (cellAt grid i (0 + l)).map (rowCellUpdate (r.get ⟨l, hl2⟩)) := h4
          rw [Nat.zero_add] at h4b
          exact h4b
      | succ s =>
          have hs : s < rest.length := by rw [List.length_cons] at ht; omega
          have hadd : i + (s + 1) = i + 1 + s := by omega
          rw [hadd]
          have hl2 : l < (rest.get ⟨s, hs⟩).length := hl
          rw [ih g (i + 1) hg (by rw [List.length_cons] at hle; omega)
            (fun r2 hr2 => hrows r2 (List.mem_cons_of_mem r hr2)) s hs l hl2]
          have h6 := fillFrom_cellAt_ne rowCellUpdate l (by omega : i + 1 + s ≠ i) r grid 0
          rw [hf] at h6
          have h6b : cellAt g (i + 1 + s) l = cellAt grid (i + 1 + s) l := h6
          rw [h6b]
          rfl

theorem gridWF_initGrid (rc cc : Nat) : gridWF (initGrid rc cc) rc cc := by
  constructor
  · simp [initGrid]
  · intro row hrow
    have h2 : row = List.replicate cc emptyCell :=
      List.eq_of_mem_replicate (by simpa [initGrid] using hrow)
    rw [h2, List.length_replicate]

theorem cellAt_initGrid {rc cc i j : Nat} (hi : i < rc) (hj : j < cc) :
    cellAt (initGrid rc cc) i j = some emptyCell := by
  unfold cellAt initGrid
  rw [List.getElem?_replicate]
  simp [hi, hj, List.getElem?_replicate]

theorem tableGrid_snd_none_iff (headers : List String) (rows : List (List String)) :
    (tableGrid headers rows).2 = none ↔
      headers ≠ [] ∧ ∀ r ∈ rows, r.length ≤ headers.length := by
  by_cases hcc : headers.length = 0
  · have h0 : headers = [] := List.eq_nil_of_length_eq_zero hcc
    subst h0
    simp [tableGrid, addTableShape]
  · have hok : addTableShape (1 + rows.length) headers.length
        = .ok (initGrid (1 + rows.length) headers.length) := by
      simp [addTableShape, hcc]
    have hne2 : headers ≠ [] := by
      intro h0
      rw [h0] at hcc
      exact hcc rfl
    have hwf0 := gridWF_initGrid (1 + rows.length) headers.length
    have hh : (fillFrom headerCellUpdate (initGrid (1 + rows.length) headers.length)
        0 0 headers).2 = none :=
      fillFrom_snd_eq_none headerCellUpdate (by omega) headers _ 0 hwf0 (by omega)
    rcases hf : fillFrom headerCellUpdate (initGrid (1 + rows.length) headers.length)
        0 0 headers with ⟨g1, e1⟩
    rw [hf] at hh
    have he : e1 = none := hh
    subst he
    have hg1 : gridWF g1 (1 + rows.length) headers.length := by
      have h3 := fillFrom_WF headerCellUpdate 0 headers
        (initGrid (1 + rows.length) headers.length) 0 hwf0
      rw [hf] at h3
      exact h3
    simp only [tableGrid, hok, hf]
    constructor
    · intro hnone
      refine ⟨hne2, ?_⟩
      by_contra hbad
      push_neg at hbad
      have hsome := fillRowsFrom_snd_some rows g1 1 hg1 (by omega) hbad
      rw [hsome] at hnone
      cases hnone
    · intro hco
      exact fillRowsFrom_snd_none rows g1 1 hg1 (by omega) hco.2

/-- C2 (amended): with headers of length `h`, the table build fails in
exactly two cases — empty headers, where python-pptx's per-column width
division (`width // cols` in `CT_Tbl.new_tbl`) raises `ZeroDivisionError`
before any cell is touched, and a row *longer* than `h`, where the
overrun column access raises a bare `IndexError` that names no row index
(the source defines no `RowShapeMismatchError`).  A row *shorter* than
the headers raises nothing: with nonempty headers and every row of
length at most `h`, the build succeeds and the unwritten cells stay
empty.  See `short_row_builds_without_error` for the refuting input. -/
theorem table_build_error_iff_overlong_row (prs : Presentation) (title : String)
    (headers : List String) (rows : List (List String)) :
    (add_table_slide prs title headers rows).2 = none ↔
      headers ≠ [] ∧ ∀ r ∈ rows, r.length ≤ headers.length := by
  have h := tableGrid_snd_none_iff headers rows
  by_cases hcc : headers.length = 0
  · have h0 : headers = [] := List.eq_nil_of_length_eq_zero hcc
    subst h0
    simp [add_table_slide, tableSlideContent, addTableShape]
  · have hok : addTableShape (1 + rows.length) headers.length
        = .ok (initGrid (1 + rows.length) headers.length) := by
      simp [addTableShape, hcc]
    rcases htg : tableGrid headers rows with ⟨g, e⟩
    rw [htg] at h
    cases e with
    | some e2 =>
        simp only [add_table_slide, tableSlideContent, hok, htg]
        simpa using h
    | none =>
        simp only [add_table_slide, tableSlideContent, hok, htg]
        simpa using h

/-- C2 counterexample: headers of length 2 with a row of length 1 (a row
length differing from the header count, which the claim says must fail
with `RowShapeMismatchError`): the build succeeds with no error, and the
slide is appended. -/
theorem short_row_builds_without_error :
    (add_table_slide { slides := [] } "Product & Pricing" ["Tier", "Price"]
      [["Free"]]).2 = none ∧
    (add_table_slide { slides := [] } "Product & Pricing" ["Tier", "Price"]
      [["Free"]]).1.slides.length = 1 := by
  decide

/-- C8: a successful table build with headers of length `h` and rows all
of length `h` allocates a grid of exactly `1 + len(rows)` rows by `h`
columns, writes every header into row 0 in bold 12 pt, and writes
`rows[i][j]` (not bold) into grid cell `(i+1, j)`, in order.  The
nonemptiness hypothesis delimits the claim's domain exactly: with empty
headers no successful build exists at all (`add_table` raises
`ZeroDivisionError` in the column-width division before any cell is
touched), so every successful build has `h ≥ 1` and is covered here. -/
theorem table_success_grid_contents (title : String) (headers : List String)
    (rows : List (List String)) (hne : headers ≠ [])
    (hall : ∀ r ∈ rows, r.length = headers.length) :
    (tableSlideContent title headers rows).2 = none ∧
    (tableGrid headers rows).1.length = 1 + rows.length ∧
    (∀ row ∈ (tableGrid headers rows).1, row.length = headers.length) ∧
    (∀ j (hj : j < headers.length),
      cellAt (tableGrid headers rows).1 0 j
        = some { text := headers.get ⟨j, hj⟩, bold := some true
                 size := some (Pt 12) }) ∧
    (∀ i2 (hi2 : i2 < rows.length) j (hj : j < (rows.get ⟨i2, hi2⟩).length),
      cellAt (tableGrid headers rows).1 (i2 + 1) j
        = some { text := (rows.get ⟨i2, hi2⟩).get ⟨j, hj⟩, bold := none
                 size := some (Pt 12) }) := by
  have hle : ∀ r ∈ rows, r.length ≤ headers.length := fun r hr => (hall r hr).le
  have hcc : ¬(headers.length = 0) := fun h0 => hne (List.eq_nil_of_length_eq_zero h0)
  have hok : addTableShape (1 + rows.length) headers.length
      = .ok (initGrid (1 + rows.length) headers.length) := by
    simp [addTableShape, hcc]
  have hwf0 := gridWF_initGrid (1 + rows.length) headers.length
  have hh : (fillFrom headerCellUpdate (initGrid (1 + rows.length) headers.length)
      0 0 headers).2 = none :=
    fillFrom_snd_eq_none headerCellUpdate (by omega) headers _ 0 hwf0 (by omega)
  rcases hf : fillFrom headerCellUpdate (initGrid (1 + rows.length) headers.length)
      0 0 headers with ⟨g1, e1⟩
  rw [hf] at hh
  have he1 : e1 = none := hh
  subst he1
  have hg1 : gridWF g1 (1 + rows.length) headers.length := by
    have h3 := fillFrom_WF headerCellUpdate 0 headers
      (initGrid (1 + rows.length) headers.length) 0 hwf0
    rw [hf] at h3
    exact h3
  have hrn := fillRowsFrom_snd_none rows g1 1 hg1 (by omega) hle
  rcases hr : fillRowsFrom g1 1 rows with ⟨g2, e2⟩
  rw [hr] at hrn
  have he2 : e2 = none := hrn
  subst he2
  have htg : tableGrid headers rows = (g2, none) := by
    simp only [tableGrid, hok, hf, hr]
  have hg2 : gridWF g2 (1 + rows.length) headers.length := by
    have h3 := fillRowsFrom_WF rows g1 1 hg1
    rw [hr] at h3
    exact h3
  refine ⟨?_, ?_, ?_, ?_, ?_⟩
  · simp [tableSlideContent, hok, htg]
  · rw [htg]; exact hg2.1
  · rw [htg]; exact hg2.2
  · intro j hj
    rw [htg]
    have h4 := fillRowsFrom_cellAt_lt rows g1 1 0 j (by omega)
    rw [hr] at h4
    have h4b : cellAt g2 0 j = cellAt g1 0 j := h4
    have h5 := fillFrom_cellAt_hit headerCellUpdate
      (by omega : (0 : Nat) < 1 + rows.length) headers
      (initGrid (1 + rows.length) headers.length) 0 hwf0 (by omega) j hj
    rw [hf] at h5
    have h5b : cellAt g1 0 (0 + j)
        = (cellAt (initGrid (1 + rows.length) headers.length) 0 (0 + j)).map
            (headerCellUpdate (headers.get ⟨j, hj⟩)) := h5
    rw [Nat.zero_add] at h5b
    rw [h4b, h5b, cellAt_initGrid (by omega) hj]
    rfl
  · intro i2 hi2 j hj
    rw [htg]
    have hj2 : j < (rows.get ⟨i2, hi2⟩).length := hj
    have h6 := fillRowsFrom_cellAt_hit rows g1 1 hg1 (by omega) hle i2 hi2 j hj2
    rw [hr] at h6
    have h6b : cellAt g2 (1 + i2) j
        = (cellAt g1 (1 + i2) j).map
            (rowCellUpdate ((rows.get ⟨i2, hi2⟩).get ⟨j, hj2⟩)) := h6
    have hcomm : i2 + 1 = 1 + i2 := by omega
    rw [hcomm, h6b]
    have h7 := fillFrom_cellAt_ne headerCellUpdate j
      (by omega : 1 + i2 ≠ 0) headers
      (initGrid (1 + rows.length) headers.length) 0
    rw [hf] at h7
    have h7b : cellAt g1 (1 + i2) j
        = cellAt (initGrid (1 + rows.length) headers.length) (1 + i2) j := h7
    have hjh : j < headers.length := by
      have := hall _ (List.get_mem rows i2 hi2)
      omega
    rw [h7b, cellAt_initGrid (by omega) hjh]
    rfl

/-- Witness for `table_success_grid_contents` on a 2-column, 1-row
table. -/
theorem table_success_grid_contents_witness :
    (tableSlideContent "Pricing" ["Tier", "Price"] [["Free", "$0"]]).2 = none ∧
    (tableGrid ["Tier", "Price"] [["Free", "$0"]]).1.length = 1 + 1 ∧
    cellAt (tableGrid ["Tier", "Price"] [["Free", "$0"]]).1 0 0
      = some { text := "Tier", bold := some true, size := some (Pt 12) } ∧
    cellAt (tableGrid ["Tier", "Price"] [["Free", "$0"]]).1 1 1
      = some { text := "$0", bold := none, size := some (Pt 12) } := by
  have h := table_success_grid_contents "Pricing" ["Tier", "Price"] [["Free", "$0"]]
    (by decide) (by decide)
  exact ⟨h.1, by rw [h.2.1]; rfl, h.2.2.2.1 0 (by decide), h.2.2.2.2 0 (by decide) 1 (by decide)⟩

theorem buildDeckFrom_slides_of_none (plan : List SlideSpec) :
    ∀ (prs : Presentation) (fs : List String), (buildDeckFrom prs fs plan).2 = none →
      (buildDeckFrom prs fs plan).1.slides
        = prs.slides ++ plan.map fun sp => (buildSlideSpec fs sp).1 := by
  induction plan with
  | nil => intro prs fs _; simp [buildDeckFrom]
  | cons spec rest ih =>
      intro prs fs h
      rcases hb : buildSlideSpec fs spec with ⟨s, e⟩
      cases e with
      | some e2 =>
          exfalso
          simp only [buildDeckFrom, hb] at h
          exact absurd h (by simp)
      | none =>
          simp only [buildDeckFrom, hb] at h ⊢
          rw [ih (appendSlide prs s) fs h]
          simp only [appendSlide, List.map_cons, hb]
          rw [List.append_assoc]
          rfl

/-- C7: whenever the plan-driven build finishes without an escaped
exception, the output presentation has exactly one slide per plan entry,
in plan order: the slide at index `n` is the slide built from the plan's
`n`-th spec, with no reordering and no deduplication, and the slide count
equals the plan length. -/
theorem deck_preserves_plan_order (fs : List String) (plan : List SlideSpec)
    (h : (buildDeck fs plan).2 = none) :
    (buildDeck fs plan).1.slides.length = plan.length ∧
    ∀ n : Nat, (buildDeck fs plan).1.slides[n]?
      = (plan[n]?).map fun sp => (buildSlideSpec fs sp).1 := by
  have hs := buildDeckFrom_slides_of_none plan { slides := [] } fs h
  constructor
  · show (buildDeckFrom { slides := [] } fs plan).1.slides.length = plan.length
    rw [hs]
    simp
  · intro n
    show (buildDeckFrom { slides := [] } fs plan).1.slides[n]?
      = (plan[n]?).map fun sp => (buildSlideSpec fs sp).1
    rw [hs]
    simp [List.getElem?_map]

/-- Witness for `deck_preserves_plan_order` on the two-spec `demoPlan`. -/
theorem deck_preserves_plan_order_witness :
    (buildDeck [] demoPlan).2 = none ∧
    (buildDeck [] demoPlan).1.slides.length = demoPlan.length ∧
    (buildDeck [] demoPlan).1.slides[1]?
      = (demoPlan[1]?).map fun sp => (buildSlideSpec [] sp).1 := by
  have h := deck_preserves_plan_order [] demoPlan (by decide)
  exact ⟨by decide, h.1, h.2 1⟩

/-- C3 (amended): a failing block builder does propagate its error to the
top-level build call — but a partial slide *is* emitted: both
`add_table_slide` and `add_images_row` append the new slide via
`prs.slides.add_slide` before filling it, and Python does not roll the
mutation back when the fill raises, so after a failure the presentation
holds one more (partially built) slide.  The claim's "the slide sequence
is the same as before the failing slide build started" is refuted by
`failed_table_slide_still_appended`. -/
theorem error_propagates_and_leftover_slide_remains :
    (∀ prs title headers rows e,
      (add_table_slide prs title headers rows).2 = some e →
      (add_table_slide prs title headers rows).1.slides.length
        = prs.slides.length + 1) ∧
    (∀ prs fs title paths e,
      (add_images_row prs fs title paths).2 = some e →
      (add_images_row prs fs title paths).1.slides.length
        = prs.slides.length + 1) ∧
    (∀ prs fs spec rest e, (buildSlideSpec fs spec).2 = some e →
      (buildDeckFrom prs fs (spec :: rest)).2 = some e ∧
      (buildDeckFrom prs fs (spec :: rest)).1.slides.length
        = prs.slides.length + 1) := by
  refine ⟨?_, ?_, ?_⟩
  · intro prs title headers rows e _
    simp [add_table_slide, appendSlide]
  · intro prs fs title paths e _
    simp [add_images_row, appendSlide]
  · intro prs fs spec rest e he
    rcases hb : buildSlideSpec fs spec with ⟨s, e2⟩
    rw [hb] at he
    have he2 : e2 = some e := he
    subst he2
    constructor <;> simp [buildDeckFrom, hb, appendSlide]

/-- Witness for `error_propagates_and_leftover_slide_remains`: a table
slide with an overlong row, and a one-spec plan whose images row is
missing its file. -/
theorem error_propagates_and_leftover_slide_remains_witness :
    (add_table_slide { slides := [] } "T" ["H"] [["a", "b"]]).2
      = some PyError.indexError ∧
    (add_table_slide { slides := [] } "T" ["H"] [["a", "b"]]).1.slides.length
      = 0 + 1 ∧
    (buildDeckFrom { slides := [] } [] [SlideSpec.imagesRow "KPI" ["img.png"]]).2
      = some (PyError.fileNotFoundError "img.png") ∧
    (buildDeckFrom { slides := [] } []
      [SlideSpec.imagesRow "KPI" ["img.png"]]).1.slides.length = 0 + 1 := by
  have h1 := error_propagates_and_leftover_slide_remains.1 { slides := [] } "T" ["H"]
    [["a", "b"]] PyError.indexError (by decide)
  have h3 := error_propagates_and_leftover_slide_remains.2.2 { slides := [] } []
    (SlideSpec.imagesRow "KPI" ["img.png"]) []
    (PyError.fileNotFoundError "img.png") (by decide)
  exact ⟨by decide, h1, h3.1, h3.2⟩

/-- C3 counterexample: a table slide whose single row overruns the single
header column fails with the `IndexError`, yet the presentation that
started empty now holds one (partial) slide — the slide sequence is not
"the same as before the failing slide build started". -/
theorem failed_table_slide_still_appended :
    (add_table_slide { slides := [] } "T" ["H"] [["a", "b"]]).2
      = some PyError.indexError ∧
    (add_table_slide { slides := [] } "T" ["H"] [["a", "b"]]).1.slides.length = 1 := by
  decide

end ScopeIQ
